import Mathlib

/-!
Verification of the Coral chatbot framework against its natural-language
specification.  The definitions below are a shallow embedding of the parts
of the source the claims are about: the event bus
(src/Coral/event_bus.py), the register (src/core/register.py), the
permission system (src/Coral/perm_system.py), the plugin dependency graph
and loader (src/Coral/plugin_manager/), and the OneBot V11 adapter
(src/libraries/adapters/onebotv11_adapter.py).  Python dicts are modelled
as total functions with the default the source supplies on a missing key,
or as insertion-ordered association lists where iteration order matters.
-/

namespace Coral

/- ## Event bus (src/Coral/event_bus.py) -/

/-- A subscriber entry, as stored in EventBus._subscribers[event_type]: the
pair (handler, priority).  Handlers are identified by their registration
index; the priority is an integer as in the source (default 5). -/
structure Sub where
  handler : Nat
  priority : Int
deriving DecidableEq

/-- Insert an element before the first entry of strictly smaller priority,
hence after every entry of greater or equal priority. -/
def insertDesc (a : Sub) : List Sub → List Sub
  | [] => [a]
  | b :: l => if b.priority < a.priority then a :: b :: l else b :: insertDesc a l

/-- The sort performed by EventBus.subscribe, line 66 of event_bus.py:
list.sort with key = priority and reverse = True.  Python's sort is stable,
and the stable descending sort is computed exactly by this left fold of
insertDesc: elements are taken in input order and each is placed after all
entries of greater or equal priority already placed. -/
def sortByPriorityDesc (l : List Sub) : List Sub :=
  l.foldl (fun acc a => insertDesc a acc) []

/-- EventBus.subscribe (event_bus.py lines 63-67): unconditionally append
the pair (handler, priority), then re-sort the whole list by descending
priority with the stable sort. -/
def subscribe (subs : List Sub) (handler : Nat) (priority : Int) : List Sub :=
  sortByPriorityDesc (subs ++ [⟨handler, priority⟩])

/-- EventBus.unsubscribe (event_bus.py lines 69-74): keep the pairs whose
handler differs from the one being removed. -/
def unsubscribe (subs : List Sub) (handler : Nat) : List Sub :=
  subs.filter (fun s => s.handler ≠ handler)

/-- Outcome of awaiting one middleware on an event: a replacement event, a
None return (which terminates propagation), or an exception. -/
inductive MwRes (α : Type) where
  | next (e : α)
  | halt
  | raises

/-- The middleware chain of EventBus.publish (event_bus.py lines 81-90).
Each middleware transforms the event; a None return terminates propagation;
an exception is caught, counted as one error, and terminates propagation.
The result is the event reaching the handler loop (or none) together with
the number of errors counted in the chain. -/
def runMiddlewares {α : Type} : List (α → MwRes α) → α → Option α × Nat
  | [], e => (some e, 0)
  | m :: ms, e =>
      match m e with
      | .next e2 => runMiddlewares ms e2
      | .halt => (none, 0)
      | .raises => (none, 1)

/-- Outcome of awaiting one handler on an event: a possibly-None return
value, or an exception. -/
inductive HRes (ρ : Type) where
  | ret (r : Option ρ)
  | raises

/-- What one call of EventBus.publish produces: the handlers entered in
order, the collected non-None results, and the number of errors counted. -/
structure PublishOut (ρ : Type) where
  entered : List Nat
  results : List ρ
  errors : Nat
deriving DecidableEq

/-- The handler loop of EventBus.publish (event_bus.py lines 92-111) over
the subscriber list held for type(event): every handler is entered in list
order; non-None results are collected; an exception is caught, counted, and
the loop continues with the next handler. -/
def handlerLoop {α ρ : Type} (beh : Nat → α → HRes ρ) (e : α) :
    List Sub → PublishOut ρ
  | [] => ⟨[], [], 0⟩
  | s :: rest =>
      match beh s.handler e, handlerLoop beh e rest with
      | .ret none, tail => ⟨s.handler :: tail.entered, tail.results, tail.errors⟩
      | .ret (some r), tail => ⟨s.handler :: tail.entered, r :: tail.results, tail.errors⟩
      | .raises, tail => ⟨s.handler :: tail.entered, tail.results, tail.errors + 1⟩

/-- EventBus.publish (event_bus.py lines 76-123) for one event: run the
middleware chain, then the handler loop on the subscribers for the event's
type.  When the chain stops propagation no handler is entered. -/
def publish {α ρ : Type} (mws : List (α → MwRes α)) (beh : Nat → α → HRes ρ)
    (subs : List Sub) (e : α) : PublishOut ρ :=
  match runMiddlewares mws e with
  | (none, k) => ⟨[], [], k⟩
  | (some e2, k) =>
      let out := handlerLoop beh e2 subs
      ⟨out.entered, out.results, out.errors + k⟩

/-- Priorities in subscription order, tagged with their registration index
starting from a given base. -/
def regSeq : Nat → List Int → List (Nat × Int)
  | _, [] => []
  | k, p :: ps => (k, p) :: regSeq (k + 1) ps

/-- Fold EventBus.subscribe over a registration list. -/
def subscribeSeq : List Sub → List (Nat × Int) → List Sub
  | s, [] => s
  | s, (h, p) :: rest => subscribeSeq (subscribe s h p) rest

/-- The subscriber list obtained by subscribing handlers 0, 1, 2, ... with
the given priorities, in that order, to one event type. -/
def busOfPriorities (ps : List Int) : List Sub :=
  subscribeSeq [] (regSeq 0 ps)

/-- The dispatch order claimed for the bus: an entry comes before another
when its priority is strictly greater, or the priorities are equal and it
was registered earlier (handler indices are registration indices). -/
def DispatchBefore (a b : Sub) : Prop :=
  b.priority < a.priority ∨ (a.priority = b.priority ∧ a.handler < b.handler)

/- ### Lemmas about the stable sort -/

theorem insertDesc_perm (a : Sub) (l : List Sub) :
    List.Perm (insertDesc a l) (a :: l) := by
  induction l with
  | nil => simp [insertDesc]
  | cons b t ih =>
      by_cases h : b.priority < a.priority
      · simp [insertDesc, h]
      · simp only [insertDesc, if_neg h]
        exact (ih.cons b).trans (List.Perm.swap a b t)

theorem sortByPriorityDesc_perm (l : List Sub) :
    List.Perm (sortByPriorityDesc l) l := by
  suffices h : ∀ (l acc : List Sub),
      List.Perm (List.foldl (fun acc a => insertDesc a acc) acc l) (acc ++ l) by
    simpa [sortByPriorityDesc] using h l []
  intro l
  induction l with
  | nil => intro acc; simp
  | cons a t ih =>
      intro acc
      have h1 := ih (insertDesc a acc)
      have h2 : List.Perm (insertDesc a acc ++ t) (acc ++ a :: t) := by
        have h3 : List.Perm (insertDesc a acc ++ t) ((a :: acc) ++ t) :=
          (insertDesc_perm a acc).append_right t
        exact h3.trans List.perm_middle.symm
      exact h1.trans h2

theorem insertDesc_append_last (a : Sub) (l : List Sub)
    (h : ∀ x ∈ l, ¬ x.priority < a.priority) :
    insertDesc a l = l ++ [a] := by
  induction l with
  | nil => simp [insertDesc]
  | cons b t ih =>
      have hb : ¬ b.priority < a.priority := h b (by simp)
      simp only [insertDesc, if_neg hb, List.cons_append, List.cons.injEq, true_and]
      exact ih (fun x hx => h x (by simp [hx]))

/-- On a list already sorted by non-increasing priority the stable sort is
the identity. -/
theorem sortByPriorityDesc_of_sorted (l : List Sub)
    (h : List.Pairwise (fun x y => y.priority ≤ x.priority) l) :
    sortByPriorityDesc l = l := by
  suffices hgen : ∀ (t acc : List Sub),
      List.Pairwise (fun x y => y.priority ≤ x.priority) (acc ++ t) →
      List.foldl (fun acc a => insertDesc a acc) acc t = acc ++ t by
    simpa [sortByPriorityDesc] using hgen l [] (by simpa using h)
  intro t
  induction t with
  | nil => intro acc _; simp
  | cons a t ih =>
      intro acc hacc
      have hins : insertDesc a acc = acc ++ [a] := by
        refine insertDesc_append_last a acc (fun x hx hlt => ?_)
        have hle : a.priority ≤ x.priority := by
          have := (List.pairwise_append.mp hacc).2.2 x hx a (by simp)
          exact this
        exact absurd hlt (not_lt.mpr hle)
      simp only [List.foldl_cons]
      rw [hins]
      have h2 := ih (acc ++ [a]) (by simpa using hacc)
      rw [h2]
      simp

theorem subscribe_eq_insertDesc (s : List Sub) (h : Nat) (p : Int)
    (hs : List.Pairwise (fun x y => y.priority ≤ x.priority) s) :
    subscribe s h p = insertDesc ⟨h, p⟩ s := by
  unfold subscribe sortByPriorityDesc
  rw [List.foldl_append]
  simp only [List.foldl_cons, List.foldl_nil]
  have := sortByPriorityDesc_of_sorted s hs
  unfold sortByPriorityDesc at this
  rw [this]

theorem insertDesc_pairwise (n : Nat) (p : Int) (s : List Sub)
    (hs : List.Pairwise DispatchBefore s)
    (hreg : ∀ y ∈ s, y.handler < n) :
    List.Pairwise DispatchBefore (insertDesc ⟨n, p⟩ s) := by
  induction s with
  | nil => simp [insertDesc]
  | cons b t ih =>
      rw [List.pairwise_cons] at hs
      by_cases h : b.priority < p
      · simp only [insertDesc, if_pos h]
        refine List.Pairwise.cons ?_ (List.Pairwise.cons hs.1 hs.2)
        intro y hy
        rcases List.mem_cons.mp hy with rfl | hy
        · exact Or.inl h
        · rcases hs.1 y hy with hlt | ⟨heq, _⟩
          · exact Or.inl (lt_trans hlt h)
          · exact Or.inl (heq ▸ h)
      · simp only [insertDesc, if_neg h]
        refine List.Pairwise.cons ?_ (ih hs.2 (fun y hy => hreg y (by simp [hy])))
        intro y hy
        have hy2 := (insertDesc_perm ⟨n, p⟩ t).mem_iff.mp hy
        rcases List.mem_cons.mp hy2 with rfl | hy3
        · rcases lt_or_eq_of_le (not_lt.mp h) with hlt | heq
          · exact Or.inl hlt
          · exact Or.inr ⟨heq.symm, hreg b (by simp)⟩
        · exact hs.1 y hy3

theorem dispatchBefore_priority_le (s : List Sub)
    (hs : List.Pairwise DispatchBefore s) :
    List.Pairwise (fun x y => y.priority ≤ x.priority) s := by
  refine hs.imp ?_
  intro a b hab
  rcases hab with h | ⟨h, _⟩
  · exact le_of_lt h
  · exact le_of_eq h.symm

/-- Invariant of the subscription fold: starting from a dispatch-ordered
state whose registration indices are below the next index, the state stays
dispatch-ordered, indices stay bounded, and the state is a permutation of
the old state plus the newly registered pairs. -/
theorem subscribeSeq_invariant (ps : List Int) :
    ∀ (k : Nat) (s : List Sub),
      List.Pairwise DispatchBefore s →
      (∀ y ∈ s, y.handler < k) →
      List.Pairwise DispatchBefore (subscribeSeq s (regSeq k ps)) ∧
      (∀ y ∈ subscribeSeq s (regSeq k ps), y.handler < k + ps.length) ∧
      List.Perm (subscribeSeq s (regSeq k ps))
        (s ++ (regSeq k ps).map (fun hp => ⟨hp.1, hp.2⟩)) := by
  induction ps with
  | nil =>
      intro k s hs hreg
      refine ⟨by simpa [regSeq, subscribeSeq] using hs, ?_, by simp [regSeq, subscribeSeq]⟩
      intro y hy
      simp only [regSeq, subscribeSeq] at hy
      simpa using hreg y hy
  | cons p ps ih =>
      intro k s hs hreg
      have hsort := dispatchBefore_priority_le s hs
      have hstep : subscribe s k p = insertDesc ⟨k, p⟩ s :=
        subscribe_eq_insertDesc s k p hsort
      have hpair : List.Pairwise DispatchBefore (subscribe s k p) := by
        rw [hstep]; exact insertDesc_pairwise k p s hs hreg
      have hmem : ∀ y ∈ subscribe s k p, y.handler < k + 1 := by
        intro y hy
        rw [hstep] at hy
        have hy1 := (insertDesc_perm ⟨k, p⟩ s).mem_iff.mp hy
        rcases List.mem_cons.mp hy1 with rfl | hy2
        · exact Nat.lt_succ_self k
        · exact Nat.lt_succ_of_lt (hreg y hy2)
      have hrec := ih (k + 1) (subscribe s k p) hpair hmem
      refine ⟨?_, ?_, ?_⟩
      · simpa [regSeq, subscribeSeq] using hrec.1
      · intro y hy
        have h2 := hrec.2.1 y (by simpa [regSeq, subscribeSeq] using hy)
        simp only [List.length_cons]
        omega
      · have hperm1 := hrec.2.2
        have hperm2 : List.Perm (subscribe s k p) (⟨k, p⟩ :: s) := by
          rw [hstep]; exact insertDesc_perm ⟨k, p⟩ s
        have hall : List.Perm (subscribeSeq (subscribe s k p) (regSeq (k + 1) ps))
            ((⟨k, p⟩ :: s) ++ (regSeq (k + 1) ps).map (fun hp => ⟨hp.1, hp.2⟩)) :=
          hperm1.trans (hperm2.append_right _)
        simp only [regSeq, subscribeSeq, List.map_cons]
        exact hall.trans List.perm_middle.symm

/-- Boolean test for the raising outcome of a handler. -/
def raisesB {ρ : Type} : HRes ρ → Bool
  | .raises => true
  | _ => false

theorem handlerLoop_entered {α ρ : Type} (beh : Nat → α → HRes ρ) (e : α)
    (subs : List Sub) :
    (handlerLoop beh e subs).entered = subs.map Sub.handler := by
  induction subs with
  | nil => rfl
  | cons s rest ih =>
      cases hb : beh s.handler e with
      | ret r => cases r <;> simp [handlerLoop, hb, ih]
      | raises => simp [handlerLoop, hb, ih]

theorem handlerLoop_errors {α ρ : Type} (beh : Nat → α → HRes ρ) (e : α)
    (subs : List Sub) :
    (handlerLoop beh e subs).errors
      = subs.countP (fun s => raisesB (beh s.handler e)) := by
  induction subs with
  | nil => rfl
  | cons s rest ih =>
      cases hb : beh s.handler e with
      | ret r => cases r <;> simp [handlerLoop, hb, ih, List.countP_cons, raisesB]
      | raises => simp [handlerLoop, hb, ih, List.countP_cons, raisesB]

theorem publish_no_mw_entered {α ρ : Type} (beh : Nat → α → HRes ρ)
    (subs : List Sub) (e : α) :
    (publish ([] : List (α → MwRes α)) beh subs e).entered
      = subs.map Sub.handler := by
  simp [publish, runMiddlewares, handlerLoop_entered]

/-- C3: for every single publish of an event, the handlers subscribed to
the event's type are entered in a total order — strictly descending
priority, and among handlers of equal priority the order in which they
were subscribed.  Handlers are registered as 0, 1, 2, ... with priorities
ps, in that order, so subscription order is the order of handler indices:
the entered sequence is exactly the subscriber list, that list is pairwise
ordered by DispatchBefore, and it is a permutation of everything
subscribed. -/
theorem publish_total_order {α ρ : Type} (ps : List Int)
    (beh : Nat → α → HRes ρ) (e : α) :
    (publish ([] : List (α → MwRes α)) beh (busOfPriorities ps) e).entered
        = (busOfPriorities ps).map Sub.handler ∧
    List.Pairwise DispatchBefore (busOfPriorities ps) ∧
    List.Perm (busOfPriorities ps)
      ((regSeq 0 ps).map (fun hp => ⟨hp.1, hp.2⟩)) := by
  have hinv := subscribeSeq_invariant ps 0 [] (by simp) (by simp)
  exact ⟨publish_no_mw_entered beh (busOfPriorities ps) e, hinv.1,
    by simpa [busOfPriorities] using hinv.2.2⟩

/-- C4: for every publish whose middleware chain passes, a handler
exception is caught and counted in total_errors, and every handler in the
dispatch order is still entered — the entered sequence is the whole
subscriber list regardless of which handlers raise, and the error count
grows by exactly one per raising handler. -/
theorem publish_handler_exception_isolated {α ρ : Type}
    (mws : List (α → MwRes α)) (beh : Nat → α → HRes ρ) (subs : List Sub)
    (e e2 : α) (k : Nat) (hmw : runMiddlewares mws e = (some e2, k)) :
    (publish mws beh subs e).entered = subs.map Sub.handler ∧
    (publish mws beh subs e).errors
      = subs.countP (fun s => raisesB (beh s.handler e2)) + k := by
  constructor
  · simp [publish, hmw, handlerLoop_entered]
  · simp [publish, hmw, handlerLoop_errors]

/-- Behavior used in the C4 witness: handler 1 raises, the others return
None (the concrete scenario of the spec: h1 priority 10, h2 and h3
priority 5, h2 raises). -/
def behC4 : Nat → Unit → HRes Unit := fun h _ => if h = 1 then .raises else .ret none

theorem publish_handler_exception_isolated_witness :
    (publish ([] : List (Unit → MwRes Unit)) behC4
        (busOfPriorities [10, 5, 5]) ()).entered = [0, 1, 2] ∧
    (publish ([] : List (Unit → MwRes Unit)) behC4
        (busOfPriorities [10, 5, 5]) ()).errors = 1 := by
  have h := publish_handler_exception_isolated []
    behC4 (busOfPriorities [10, 5, 5]) () () 0 rfl
  exact ⟨h.1.trans (by decide), h.2.trans (by decide)⟩

/-- C7 counterexample: subscribing the same handler to the same event type
a second time does not leave the subscriber list unchanged — the list gains
a duplicate entry — and a subsequent publish enters that handler twice, not
exactly once. -/
theorem subscribe_not_idempotent_cex :
    subscribe (subscribe [] 0 5) 0 5 ≠ subscribe [] 0 5 ∧
    ((publish ([] : List (Unit → MwRes Unit))
        (fun _ _ => HRes.ret (none : Option Unit))
        (subscribe (subscribe [] 0 5) 0 5) ()).entered).count 0 = 2 := by
  constructor
  · decide
  · decide

/-- C7 amended: subscribe is not idempotent.  It unconditionally appends an
entry, so after subscribing a handler once more a publish enters that
handler exactly one more time than before. -/
theorem subscribe_appends_entry {α ρ : Type} (s : List Sub) (h : Nat)
    (p : Int) (beh : Nat → α → HRes ρ) (e : α) :
    ((publish ([] : List (α → MwRes α)) beh (subscribe s h p) e).entered).count h
      = ((publish ([] : List (α → MwRes α)) beh s e).entered).count h + 1 := by
  rw [publish_no_mw_entered, publish_no_mw_entered]
  have hperm : List.Perm (subscribe s h p) (⟨h, p⟩ :: s) := by
    unfold subscribe
    exact (sortByPriorityDesc_perm (s ++ [⟨h, p⟩])).trans (List.perm_append_singleton _ _)
  rw [(hperm.map Sub.handler).count_eq h]
  simp [List.count_cons]

/- ## Protocol data model (src/Coral/protocol/message.py; the identical
definitions in src/core/protocol.py are used by src/core/register.py) -/

/-- A value stored in a message segment's data dict: a string, a Python
None, or a boolean. -/
inductive DVal where
  | vstr (s : String)
  | vnone
  | vbool (b : Bool)
deriving DecidableEq

/-- MessageSegment.data is a Union of a plain string (text segments) and a
dict (all other variants). -/
inductive SegData where
  | str (s : String)
  | dict (d : List (String × DVal))
deriving DecidableEq

/-- MessageSegment (message.py lines 72-77): a type tag and the data. -/
structure MessageSegment where
  type : String
  data : SegData
deriving DecidableEq

/-- MessageSegment.text (message.py lines 79-82). -/
def MessageSegment.text (content : String) : MessageSegment :=
  ⟨"text", .str content⟩

/-- MessageSegment.image (message.py lines 84-91); the adapter's inbound
path calls it with the url only, so width and height are their None
defaults. -/
def MessageSegment.image (url : String) : MessageSegment :=
  ⟨"image", .dict [("url", .vstr url), ("width", .vnone), ("height", .vnone)]⟩

/-- MessageSegment.at (message.py lines 93-96); named atUser because at is
a reserved word here. -/
def MessageSegment.atUser (userId : String) : MessageSegment :=
  ⟨"at", .dict [("user_id", .vstr userId)]⟩

/-- MessageSegment.audio (message.py lines 108-116). -/
def MessageSegment.audio (url : String) (record : Bool) : MessageSegment :=
  ⟨"audio", .dict [("url", .vstr url), ("record", .vbool record)]⟩

/-- MessageSegment.video (message.py lines 103-106). -/
def MessageSegment.video (url : String) : MessageSegment :=
  ⟨"video", .dict [("url", .vstr url)]⟩

/-- MessageChain (message.py lines 177-181): an ordered segment list. -/
structure MessageChain where
  segments : List MessageSegment
deriving DecidableEq

/-- UserInfo with the fields the embedded code reads. -/
structure UserInfo where
  platform : String
  userId : String
  nickname : Option String := none
deriving DecidableEq

/-- GroupInfo with the fields the embedded code reads. -/
structure GroupInfo where
  platform : String
  groupId : String
deriving DecidableEq

/-- CommandEvent with the fields Register.execute_command reads. -/
structure CommandEvent where
  eventId : String
  platform : String
  selfId : String
  command : String
  args : List String
  user : UserInfo
  group : Option GroupInfo
deriving DecidableEq

/-- MessageRequest (protocol.py lines 198-208) with the fields the embedded
code constructs and reads; at_sender defaults to False and recall_duration
(unread here) to None. -/
structure MessageRequest where
  platform : String
  eventId : String
  selfId : String
  message : MessageChain
  user : Option UserInfo := none
  group : Option GroupInfo := none
  atSender : Bool := false
deriving DecidableEq

/- ## OneBot V11 adapter (src/libraries/adapters/onebotv11_adapter.py) -/

/-- A OneBot V11 wire message segment: the type tag and the data dict.  The
frames the claims quantify over carry string values. -/
structure OBSeg where
  type : String
  data : List (String × String)
deriving DecidableEq

/-- Python dict lookup d[k] on a wire data dict: none models a KeyError. -/
def wireGet (d : List (String × String)) (k : String) : Option String :=
  (d.find? (fun kv => kv.1 = k)).map (fun kv => kv.2)

/-- Python dict lookup d.get(k, default) on a wire data dict. -/
def wireGetD (d : List (String × String)) (k : String) (dflt : String) : String :=
  (wireGet d k).getD dflt

/-- Python d.get(k, "") on a segment data dict, for the places where the
outbound path reads a string out of MessageSegment.data; a non-string
value behaves like the default here (the framework only stores strings
under these keys). -/
def segGetStr (d : List (String × DVal)) (k : String) : String :=
  match d.find? (fun kv => kv.1 = k) with
  | some (_, .vstr s) => s
  | _ => ""

/-- Python d.get(k, False) truthiness on a segment data dict, used for the
record flag of audio segments. -/
def segGetBool (d : List (String × DVal)) (k : String) : Bool :=
  match d.find? (fun kv => kv.1 = k) with
  | some (_, .vbool b) => b
  | _ => false

/-- The per-segment translation of Onebotv11Adapter._handle_message_event
(onebotv11_adapter.py lines 67-105) for the segment kinds the claims reach:
text, image, at, record and video.  A KeyError (missing key) aborts the
surrounding handler, so it is modelled as none; unhandled types are skipped
(none).  The share, location and music branches build Share payloads no
claim depends on and are not modelled. -/
def decodeSegment (s : OBSeg) : Option MessageSegment :=
  if s.type = "text" then (wireGet s.data "text").map MessageSegment.text
  else if s.type = "image" then (wireGet s.data "url").map MessageSegment.image
  else if s.type = "at" then (wireGet s.data "qq").map MessageSegment.atUser
  else if s.type = "record" then some (MessageSegment.audio (wireGetD s.data "url" "") true)
  else if s.type = "video" then some (MessageSegment.video (wireGetD s.data "url" ""))
  else none

/-- The per-segment encoding loop of
Onebotv11Adapter.handle_outgoing_message (onebotv11_adapter.py lines
203-233) for the same segment kinds: text emits the raw string under the
text key, image emits the stored url under the FILE key, at emits the
stored user_id under the qq key; an audio segment is emitted as a record
only when its record flag is set, and a non-dict data on the dict-carrying
variants appends nothing.  The share branch (lines 234-269) is not
modelled; no claim depends on it. -/
def encodeSegment (seg : MessageSegment) : Option OBSeg :=
  if seg.type = "text" then
    match seg.data with
    | .str t => some ⟨"text", [("text", t)]⟩
    | .dict _ => none
  else if seg.type = "image" then
    match seg.data with
    | .dict d => some ⟨"image", [("file", segGetStr d "url")]⟩
    | .str _ => none
  else if seg.type = "at" then
    match seg.data with
    | .dict d => some ⟨"at", [("qq", segGetStr d "user_id")]⟩
    | .str _ => none
  else if seg.type = "audio" then
    match seg.data with
    | .dict d =>
        if segGetBool d "record" then some ⟨"record", [("file", segGetStr d "url")]⟩
        else none
    | .str _ => none
  else if seg.type = "video" then
    match seg.data with
    | .dict d => some ⟨"video", [("file", segGetStr d "url")]⟩
    | .str _ => none
  else none

/-- Decode an inbound wire segment and re-encode the resulting protocol
segment on the outbound path. -/
def roundTripSegment (w : OBSeg) : Option OBSeg :=
  (decodeSegment w).bind encodeSegment

/-- C5 counterexample: an inbound image segment with its data under the url
key round-trips into an outbound segment whose data key is file, so the
wire shape is not preserved bit-for-bit. -/
theorem onebot_roundtrip_cex :
    roundTripSegment ⟨"image", [("url", "http://img")]⟩
        = some ⟨"image", [("file", "http://img")]⟩ ∧
    roundTripSegment ⟨"image", [("url", "http://img")]⟩
        ≠ some ⟨"image", [("url", "http://img")]⟩ := by
  constructor
  · rfl
  · decide

/-- C5 amended: on canonical single-key inbound frames, text and at
segments round-trip bit-for-bit; an image segment keeps its type and its
url value, but the outbound data key is file instead of url. -/
theorem onebot_roundtrip_amended (t u q : String) :
    roundTripSegment ⟨"text", [("text", t)]⟩ = some ⟨"text", [("text", t)]⟩ ∧
    roundTripSegment ⟨"at", [("qq", q)]⟩ = some ⟨"at", [("qq", q)]⟩ ∧
    roundTripSegment ⟨"image", [("url", u)]⟩
        = some ⟨"image", [("file", u)]⟩ := by
  refine ⟨?_, ?_, ?_⟩ <;>
    simp [roundTripSegment, decodeSegment, encodeSegment, wireGet, segGetStr,
      MessageSegment.text, MessageSegment.atUser, MessageSegment.image,
      List.find?]

/- ## Register (src/core/register.py) -/

/-- The permission attached to a registered command: the Union of a single
permission name and a list of names (any-of). -/
inductive PermArg where
  | single (p : String)
  | list (ps : List String)
deriving DecidableEq

/-- Outcome of awaiting a registered command handler on an event: some
MessageBase descendant, a plain string, or an exception. -/
inductive CmdRes where
  | msg (m : MessageRequest)
  | str (s : String)
  | raises (err : String)

/-- Invocation behavior of a registered named function on the call the
claims make: a returned value or an exception carrying its message. -/
inductive FnRes where
  | ret (v : String)
  | raises (err : String)
deriving DecidableEq

/-- Register state: the commands dict (name to handler and permission), the
functions dict, and the crash_times ledger keyed by kind and then name with
default 0.  Dicts are modelled as total functions; command descriptions and
GenericEvent wrappers are not read by any claim. -/
structure RegisterState where
  commands : String → Option ((CommandEvent → CmdRes) × Option PermArg)
  functions : String → Option FnRes
  crashTimes : String → String → Nat

/-- A register with nothing registered. -/
def emptyRegister : RegisterState :=
  ⟨fun _ => none, fun _ => none, fun _ _ => 0⟩

/-- Register.register_command (register.py lines 75-87): a duplicate name
is overwritten with a warning. -/
def registerCommand (st : RegisterState) (name : String)
    (handler : CommandEvent → CmdRes) (permission : Option PermArg) :
    RegisterState :=
  { st with commands := fun m => if m = name then some (handler, permission) else st.commands m }

/-- Register.register_function (register.py lines 89-95): a duplicate name
is an error and is not overwritten. -/
def registerFunction (st : RegisterState) (name : String) (f : FnRes) :
    RegisterState :=
  match st.functions name with
  | some _ => st
  | none => { st with functions := fun m => if m = name then some f else st.functions m }

/-- The first half of Register.crash_record (register.py lines 232-272):
increment the (kind, name) counter, missing keys starting from 0; the
crash-report file write is external I/O. -/
def crashBump (kind name : String) (st : RegisterState) : RegisterState :=
  { st with crashTimes := fun k m =>
      if k = kind ∧ m = name then st.crashTimes kind name + 1 else st.crashTimes k m }

/-- Register.crash_record (register.py lines 232-272): bump the counter,
then when it is 3 or more, unregister the entry of the matching kind.  The
event arm of the source unregisters GenericEvent wrappers, which no claim
reads, so it leaves this state unchanged. -/
def crashRecord (kind name : String) (st : RegisterState) : RegisterState :=
  if 3 ≤ st.crashTimes kind name + 1 then
    match kind with
    | "event" => crashBump kind name st
    | "command" =>
        { crashBump kind name st with
          commands := fun m => if m = name then none else (crashBump kind name st).commands m }
    | "function" =>
        { crashBump kind name st with
          functions := fun m => if m = name then none else (crashBump kind name st).functions m }
    | _ => crashBump kind name st
  else crashBump kind name st

/-- Register.no_command (register.py lines 197-198). -/
def noCommand : String := "No command found"

/-- Python truthiness of the stored permission: None, the empty string and
the empty list are falsy. -/
def permTruthy : Option PermArg → Bool
  | none => false
  | some (.single p) => p ≠ ""
  | some (.list ps) => ¬ ps.isEmpty

/-- The group id handed to check_perm by execute_command: the group id, or
-1 (stringified by the permission system) for a private chat. -/
def eventGroupId (ev : CommandEvent) : String :=
  match ev.group with
  | some g => g.groupId
  | none => "-1"

/-- A MessageRequest built by execute_command around a text body, inheriting
platform, event id, self id, user and group from the event. -/
def textReply (ev : CommandEvent) (body : String) : MessageRequest :=
  { platform := ev.platform, eventId := ev.eventId, selfId := ev.selfId,
    message := ⟨[MessageSegment.text body]⟩,
    user := some ev.user, group := ev.group }

/-- The guard of execute_command, line 152 of register.py: the stored
permission is truthy and the hooked check_perm denies it. -/
def permDenied (permCheck : PermArg → String → String → Bool)
    (permission : Option PermArg) (ev : CommandEvent) : Bool :=
  match permission with
  | none => false
  | some pa => permTruthy (some pa) && !(permCheck pa ev.user.userId (eventGroupId ev))

/-- Register.execute_command (register.py lines 133-195).  permCheck stands
for the hooked permission system's check_perm.  Unknown command: reply with
the no-command message.  A truthy permission that fails the check: reply
with Permission denied.  Otherwise the handler runs; a MessageBase result
is returned as is, a string result is wrapped in a text MessageRequest, and
an exception is crash-recorded and reported as an error reply. -/
def executeCommand (permCheck : PermArg → String → String → Bool)
    (st : RegisterState) (ev : CommandEvent) :
    MessageRequest × RegisterState :=
  match st.commands ev.command with
  | none => (textReply ev noCommand, st)
  | some (handler, permission) =>
      if permDenied permCheck permission ev then (textReply ev "Permission denied", st)
      else
        match handler ev with
        | .msg m => (m, st)
        | .str s => (textReply ev s, st)
        | .raises err =>
            (textReply ev ("Error executing command " ++ ev.command ++ ": " ++ err),
             crashRecord "command" ev.command st)

/-- The state after one execute_command call. -/
def execCommandStep (permCheck : PermArg → String → String → Bool)
    (ev : CommandEvent) (st : RegisterState) : RegisterState :=
  (executeCommand permCheck st ev).2

/-- Register.execute_function (register.py lines 116-131): a registered
function is awaited; an exception is caught, crash-recorded, and None is
returned; an unregistered name raises ValueError with the message below. -/
def executeFunction (st : RegisterState) (name : String) :
    Except String (Option String) × RegisterState :=
  match st.functions name with
  | some (.ret v) => (Except.ok (some v), st)
  | some (.raises _) => (Except.ok none, crashRecord "function" name st)
  | none =>
      (Except.error ("Function " ++ name ++ " not found, probably you forget register it"), st)

/-- Iterated execute_command, keeping only the state. -/
def execCommandIter (permCheck : PermArg → String → String → Bool)
    (ev : CommandEvent) : Nat → RegisterState → RegisterState
  | 0, st => st
  | n + 1, st => execCommandIter permCheck ev n (execCommandStep permCheck ev st)

theorem crashRecord_crashTimes (kind name : String) (st : RegisterState) :
    (crashRecord kind name st).crashTimes kind name
      = st.crashTimes kind name + 1 := by
  unfold crashRecord
  split
  · split <;> simp [crashBump]
  · simp [crashBump]

theorem crashRecord_commands_of_lt (kind name : String) (st : RegisterState)
    (h : st.crashTimes kind name + 1 < 3) :
    (crashRecord kind name st).commands = st.commands := by
  unfold crashRecord
  rw [if_neg (by omega)]
  simp [crashBump]

theorem crashRecord_command_unregisters (name : String) (st : RegisterState)
    (h : st.crashTimes "command" name = 2) :
    (crashRecord "command" name st).commands name = none ∧
    (crashRecord "command" name st).crashTimes "command" name = 3 := by
  simp [crashRecord, crashBump, h]

theorem execCommandStep_of_raises (permCheck : PermArg → String → String → Bool)
    (st : RegisterState) (ev : CommandEvent)
    (handler : CommandEvent → CmdRes) (permission : Option PermArg) (err : String)
    (hcmd : st.commands ev.command = some (handler, permission))
    (hraise : handler ev = CmdRes.raises err)
    (hallow : permDenied permCheck permission ev = false) :
    execCommandStep permCheck ev st = crashRecord "command" ev.command st := by
  simp [execCommandStep, executeCommand, hcmd, hallow, hraise]

/-- C2: a registered command whose handler raises on every invocation is
unregistered automatically when the per-(kind, name) crash counter reaches
3 on the third execute_command, and a fourth execute_command for that name
returns a MessageRequest whose body is the no-command message. -/
theorem command_auto_disable (permCheck : PermArg → String → String → Bool)
    (st : RegisterState) (ev : CommandEvent)
    (handler : CommandEvent → CmdRes) (permission : Option PermArg) (err : String)
    (hcmd : st.commands ev.command = some (handler, permission))
    (hraise : ∀ e, handler e = CmdRes.raises err)
    (hzero : st.crashTimes "command" ev.command = 0)
    (hallow : permDenied permCheck permission ev = false) :
    (execCommandIter permCheck ev 3 st).commands ev.command = none ∧
    (execCommandIter permCheck ev 3 st).crashTimes "command" ev.command = 3 ∧
    (executeCommand permCheck (execCommandIter permCheck ev 3 st) ev).1
      = textReply ev noCommand := by
  have hstep1 : execCommandStep permCheck ev st = crashRecord "command" ev.command st :=
    execCommandStep_of_raises permCheck st ev handler permission err hcmd (hraise ev) hallow
  have hc1 : (execCommandStep permCheck ev st).commands = st.commands := by
    rw [hstep1]
    exact crashRecord_commands_of_lt _ _ st (by omega)
  have ht1 : (execCommandStep permCheck ev st).crashTimes "command" ev.command = 1 := by
    rw [hstep1, crashRecord_crashTimes, hzero]
  have hstep2 : execCommandStep permCheck ev (execCommandStep permCheck ev st)
      = crashRecord "command" ev.command (execCommandStep permCheck ev st) :=
    execCommandStep_of_raises permCheck _ ev handler permission err
      (by rw [hc1]; exact hcmd) (hraise ev) hallow
  have hc2 : (execCommandStep permCheck ev (execCommandStep permCheck ev st)).commands
      = st.commands := by
    rw [hstep2, crashRecord_commands_of_lt _ _ _ (by omega)]
    exact hc1
  have ht2 : (execCommandStep permCheck ev
      (execCommandStep permCheck ev st)).crashTimes "command" ev.command = 2 := by
    rw [hstep2, crashRecord_crashTimes, ht1]
  have hstep3 : execCommandStep permCheck ev
      (execCommandStep permCheck ev (execCommandStep permCheck ev st))
      = crashRecord "command" ev.command
          (execCommandStep permCheck ev (execCommandStep permCheck ev st)) :=
    execCommandStep_of_raises permCheck _ ev handler permission err
      (by rw [hc2]; exact hcmd) (hraise ev) hallow
  have hiter : execCommandIter permCheck ev 3 st
      = execCommandStep permCheck ev
          (execCommandStep permCheck ev (execCommandStep permCheck ev st)) := rfl
  have hfin := crashRecord_command_unregisters ev.command _ ht2
  rw [hiter, hstep3]
  refine ⟨hfin.1, hfin.2, ?_⟩
  simp [executeCommand, hfin.1]

/-- Handler used by the C2 witness: it raises on every event. -/
def handlerC2 : CommandEvent → CmdRes := fun _ => CmdRes.raises "boom"

/-- Event used by the C2 witness. -/
def evC2 : CommandEvent :=
  ⟨"1", "console", "0", "ping", [], ⟨"console", "42", none⟩, none⟩

/-- Register used by the C2 witness: only the always-raising ping command. -/
def stC2 : RegisterState := registerCommand emptyRegister "ping" handlerC2 none

theorem command_auto_disable_witness :
    (execCommandIter (fun _ _ _ => true) evC2 3 stC2).commands evC2.command = none ∧
    (execCommandIter (fun _ _ _ => true) evC2 3 stC2).crashTimes "command" evC2.command = 3 ∧
    (executeCommand (fun _ _ _ => true) (execCommandIter (fun _ _ _ => true) evC2 3 stC2) evC2).1
      = textReply evC2 noCommand :=
  command_auto_disable (fun _ _ _ => true) stC2 evC2 handlerC2 none "boom"
    rfl (fun _ => rfl) rfl rfl

/-- C6 counterexample: execute_function on a name that was never registered
raises ValueError with this message instead of capturing the failure and
returning a typed null value. -/
theorem execute_function_unregistered_raises :
    (executeFunction emptyRegister "foo").1
      = Except.error "Function foo not found, probably you forget register it" := rfl

/-- C6 amended: an exception from a REGISTERED function is captured,
recorded in the crash ledger and returned as a None value, but for a name
that was never registered execute_function raises ValueError rather than
returning a typed value. -/
theorem execute_function_amended (st : RegisterState) (name err : String)
    (h : st.functions name = some (FnRes.raises err)) :
    (executeFunction st name).1 = Except.ok none ∧
    ((executeFunction st name).2).crashTimes "function" name
        = st.crashTimes "function" name + 1 ∧
    ∀ st2 : RegisterState, st2.functions name = none →
      (executeFunction st2 name).1
        = Except.error ("Function " ++ name ++ " not found, probably you forget register it") := by
  refine ⟨?_, ?_, ?_⟩
  · simp [executeFunction, h]
  · simp [executeFunction, h, crashRecord_crashTimes]
  · intro st2 h2
    simp [executeFunction, h2]

theorem execute_function_amended_witness :
    (executeFunction (registerFunction emptyRegister "f" (FnRes.raises "boom")) "f").1
        = Except.ok none ∧
    ((executeFunction (registerFunction emptyRegister "f" (FnRes.raises "boom")) "f").2).crashTimes
        "function" "f"
        = (registerFunction emptyRegister "f" (FnRes.raises "boom")).crashTimes "function" "f" + 1 ∧
    (executeFunction emptyRegister "f").1
        = Except.error ("Function " ++ "f" ++ " not found, probably you forget register it") :=
  ⟨(execute_function_amended (registerFunction emptyRegister "f" (FnRes.raises "boom"))
      "f" "boom" rfl).1,
   (execute_function_amended (registerFunction emptyRegister "f" (FnRes.raises "boom"))
      "f" "boom" rfl).2.1,
   (execute_function_amended (registerFunction emptyRegister "f" (FnRes.raises "boom"))
      "f" "boom" rfl).2.2 emptyRegister rfl⟩

/- ## Permission system (src/Coral/perm_system.py) -/

/-- One element of a user's permission list: the dict with perm and group
keys. -/
structure PermEntry where
  perm : String
  group : String
deriving DecidableEq

/-- Permission system state.  registered_perms maps a permission name to
its description; user_perms maps a user id to its permission entries with
default empty list; group_perms maps a group id to its permission names
with default empty list.  The source's key-presence guards composed with
the loops and lookups they guard behave exactly like operating on the
defaulted value, so total functions are a faithful dict model. -/
structure PermState where
  registeredPerms : String → Option String
  userPerms : String → List PermEntry
  groupPerms : String → List String

/-- PermSystem.register_perm (perm_system.py lines 142-153): a duplicate is
overwritten. -/
def registerPerm (st : PermState) (name desc : String) : PermState :=
  { st with registeredPerms := fun k => if k = name then some desc else st.registeredPerms k }

/-- PermSystem state right after __init__ with an absent permission file:
empty stores, then the two built-in registrations. -/
def initPermState : PermState :=
  registerPerm (registerPerm ⟨fun _ => none, fun _ => [], fun _ => []⟩
    "ALL" "all permissions") "permission_system" "permission system base"

/-- The JSON payload save_permissions dumps: the user and group stores. -/
structure PermFileData where
  userPerms : String → List PermEntry
  groupPerms : String → List String

/-- An abstract file-system operation performed by the persistence code: a
direct truncating write of a whole file with some payload, or a rename. -/
inductive FsOp where
  | write (path : String) (payload : PermFileData)
  | rename (src dst : String)

/-- The default permission store path. -/
def permFileDefault : String := "./coral.perms"

/-- PermSystem.save_permissions (perm_system.py lines 130-140): the payload
is dumped straight into the store file opened in mode w — one in-place
truncating write, with no temporary file and no rename. -/
def savePermissionsTrace (st : PermState) : List FsOp :=
  [FsOp.write permFileDefault ⟨st.userPerms, st.groupPerms⟩]

/-- Decide whether a trace is an atomic replacement of the store file: a
write of a temporary file followed by renaming it over the store file. -/
def isAtomicReplace (storeFile : String) : List FsOp → Bool
  | [FsOp.write tmp _, FsOp.rename src dst] =>
      tmp == src && dst == storeFile && !(tmp == storeFile)
  | _ => false

/-- Outcome reported by add_perm (the source returns human-readable
strings; only which branch ran matters to the claims). -/
inductive AddPermResult where
  | notRegistered
  | groupAdded
  | groupAlready
  | userAdded
  | userAlready
deriving DecidableEq

/-- PermSystem.add_perm (perm_system.py lines 155-198), together with the
file-system operations it performs.  An unregistered permission is
refused.  The user id -1 selects the group branch, which appends the
permission to group_perms under the given group id and saves; otherwise
the entry (perm, group) is appended to the user's list if absent, and
saved.  Branches that do not mutate do not save. -/
def addPerm (st : PermState) (permName userId groupId : String) :
    AddPermResult × PermState × List FsOp :=
  if (st.registeredPerms permName).isNone then (.notRegistered, st, [])
  else if userId = "-1" then
    if permName ∈ st.groupPerms groupId then (.groupAlready, st, [])
    else
      let st2 : PermState :=
        { st with groupPerms := fun k =>
            if k = groupId then st.groupPerms groupId ++ [permName] else st.groupPerms k }
      (.groupAdded, st2, savePermissionsTrace st2)
  else
    if (⟨permName, groupId⟩ : PermEntry) ∈ st.userPerms userId then (.userAlready, st, [])
    else
      let st2 : PermState :=
        { st with userPerms := fun k =>
            if k = userId then st.userPerms userId ++ [⟨permName, groupId⟩] else st.userPerms k }
      (.userAdded, st2, savePermissionsTrace st2)

/-- Outcome reported by remove_perm (only which branch ran matters). -/
inductive RemovePermResult where
  | groupRemoved
  | groupNotOwned
  | userRemoved
  | notOwned
deriving DecidableEq

/-- PermSystem.remove_perm (perm_system.py lines 200-235), together with
the file-system operations it performs.  The user id -1 selects the group
branch; removal takes the first occurrence, as list.remove does; there is
no registration check, and branches that do not mutate do not save. -/
def removePerm (st : PermState) (permName userId groupId : String) :
    RemovePermResult × PermState × List FsOp :=
  if userId = "-1" then
    if permName ∈ st.groupPerms groupId then
      let st2 : PermState :=
        { st with groupPerms := fun k =>
            if k = groupId then (st.groupPerms groupId).erase permName
            else st.groupPerms k }
      (.groupRemoved, st2, savePermissionsTrace st2)
    else (.groupNotOwned, st, [])
  else
    if (⟨permName, groupId⟩ : PermEntry) ∈ st.userPerms userId then
      let st2 : PermState :=
        { st with userPerms := fun k =>
            if k = userId then (st.userPerms userId).erase ⟨permName, groupId⟩
            else st.userPerms k }
      (.userRemoved, st2, savePermissionsTrace st2)
    else (.notOwned, st, [])

/-- PermSystem.clear_user_perms (perm_system.py lines 380-387): when the
key is present, delete the user and save.  In the defaulted-dict model a
present key with an empty list is identified with an absent key; the only
effect is that clearing such a user skips a save that would rewrite an
unchanged store, which no claim distinguishes. -/
def clearUserPerms (st : PermState) (userId : String) :
    Bool × PermState × List FsOp :=
  if st.userPerms userId = [] then (false, st, [])
  else
    let st2 : PermState :=
      { st with userPerms := fun k => if k = userId then [] else st.userPerms k }
    (true, st2, savePermissionsTrace st2)

/-- PermSystem.clear_group_perms (perm_system.py lines 389-396), exactly as
clear_user_perms on the group store. -/
def clearGroupPerms (st : PermState) (groupId : String) :
    Bool × PermState × List FsOp :=
  if st.groupPerms groupId = [] then (false, st, [])
  else
    let st2 : PermState :=
      { st with groupPerms := fun k => if k = groupId then [] else st.groupPerms k }
    (true, st2, savePermissionsTrace st2)

/-- PermSystem._check_single_perm (perm_system.py lines 293-327).  An
unregistered permission passes with a warning.  Then: a user entry with
perm ALL, or with this perm and group ALL; a user entry with this perm and
this group; the group's own list; the global group -1. -/
def checkSinglePerm (st : PermState) (permName userId groupId : String) : Bool :=
  if (st.registeredPerms permName).isNone then true
  else if (st.userPerms userId).any
      (fun e => e.perm == "ALL" || (e.perm == permName && e.group == "ALL")) then true
  else if (st.userPerms userId).any
      (fun e => e.perm == permName && e.group == groupId) then true
  else if permName ∈ st.groupPerms groupId then true
  else if permName ∈ st.groupPerms "-1" then true
  else false

/-- PermSystem.check_perm (perm_system.py lines 263-291): the Console user
always passes; a list succeeds on any member; a single name delegates to
_check_single_perm. -/
def checkPerm (st : PermState) (arg : PermArg) (userId groupId : String) : Bool :=
  if userId = "Console" then true
  else
    match arg with
    | .list ps => ps.any (fun p => checkSinglePerm st p userId groupId)
    | .single p => checkSinglePerm st p userId groupId

/-- C8 counterexample: granting a registered permission with the sentinel
user id -1 and group ALL lands in the group branch of add_perm (it becomes
a grant to the literal group named ALL), and the check in an ordinary group
then fails. -/
theorem perm_all_group_cex :
    checkPerm (addPerm initPermState "permission_system" "-1" "ALL").2.1
        (.single "permission_system") "-1" "1" = false := by
  decide

/-- C8 amended: for every user id other than the group sentinel -1, after
add_perm of a permission with group ALL, check_perm of that permission
succeeds for that user in every group (for an unregistered permission the
store is unchanged but the check passes by the skip rule). -/
theorem perm_all_group_amended (st : PermState) (p u g : String)
    (hu : u ≠ "-1") :
    checkPerm (addPerm st p u "ALL").2.1 (.single p) u g = true := by
  by_cases hc : u = "Console"
  · simp [checkPerm, hc]
  · rcases hreg : (st.registeredPerms p).isNone with hfalse | htrue
    · -- the permission is registered: the user branch runs
      have hmem : (⟨p, "ALL"⟩ : PermEntry) ∈ ((addPerm st p u "ALL").2.1).userPerms u := by
        simp only [addPerm, hreg, Bool.false_eq_true, if_false, if_neg hu]
        by_cases hin : (⟨p, "ALL"⟩ : PermEntry) ∈ st.userPerms u
        · simp [hin]
        · simp [hin]
      have hany : (((addPerm st p u "ALL").2.1).userPerms u).any
          (fun e => e.perm == "ALL" || (e.perm == p && e.group == "ALL")) = true := by
        refine List.any_eq_true.mpr ⟨⟨p, "ALL"⟩, hmem, by simp⟩
      have hreg2 : (((addPerm st p u "ALL").2.1).registeredPerms p).isNone = false := by
        simp only [addPerm, hreg, Bool.false_eq_true, if_false, if_neg hu]
        by_cases hin : (⟨p, "ALL"⟩ : PermEntry) ∈ st.userPerms u <;> simp [hin, hreg]
      simp [checkPerm, hc, checkSinglePerm, hreg2, hany]
    · -- the permission is not registered: add_perm refuses, the check skips
      simp [addPerm, hreg, checkPerm, hc, checkSinglePerm]

theorem perm_all_group_amended_witness :
    checkPerm (addPerm initPermState "permission_system" "42" "ALL").2.1
        (.single "permission_system") "42" "7" = true :=
  perm_all_group_amended initPermState "permission_system" "42" "7" (by decide)

/-- C9 counterexample: a mutating add_perm persists the store with a trace
that is not an atomic temp-file-plus-rename replacement. -/
theorem perm_save_not_atomic_cex :
    (addPerm initPermState "permission_system" "42" "7").2.2.length = 1 ∧
    isAtomicReplace permFileDefault
        (addPerm initPermState "permission_system" "42" "7").2.2 = false := by
  constructor
  · rfl
  · rfl

/-- The persistence shape of one mutator call on the store: either nothing
was written and the state is unchanged, or the new state was persisted by
exactly one direct truncating write of the store file — a trace that is
not an atomic temp-file-plus-rename replacement. -/
def DirectWriteShape (st : PermState) (out : PermState × List FsOp) : Prop :=
  (out.2 = [] ∧ out.1 = st) ∨
  (out.2 = [FsOp.write permFileDefault ⟨out.1.userPerms, out.1.groupPerms⟩] ∧
   isAtomicReplace permFileDefault out.2 = false)

/-- C9 amended: every mutation of the permission store — add_perm,
remove_perm, clear_user_perms and clear_group_perms — persists it by a
single direct truncating write of the store file (or writes nothing when
it did not mutate); no mutation writes a temporary file and renames it, so
no save is atomic. -/
theorem perm_mutation_direct_write (st : PermState) (p u g : String) :
    DirectWriteShape st (addPerm st p u g).2 ∧
    DirectWriteShape st (removePerm st p u g).2 ∧
    DirectWriteShape st (clearUserPerms st u).2 ∧
    DirectWriteShape st (clearGroupPerms st g).2 := by
  refine ⟨?_, ?_, ?_, ?_⟩ <;> simp only [DirectWriteShape]
  · unfold addPerm
    split
    · exact Or.inl ⟨rfl, rfl⟩
    · split
      · split
        · exact Or.inl ⟨rfl, rfl⟩
        · exact Or.inr ⟨rfl, rfl⟩
      · split
        · exact Or.inl ⟨rfl, rfl⟩
        · exact Or.inr ⟨rfl, rfl⟩
  · unfold removePerm
    split
    · split
      · exact Or.inr ⟨rfl, rfl⟩
      · exact Or.inl ⟨rfl, rfl⟩
    · split
      · exact Or.inr ⟨rfl, rfl⟩
      · exact Or.inl ⟨rfl, rfl⟩
  · unfold clearUserPerms
    split
    · exact Or.inl ⟨rfl, rfl⟩
    · exact Or.inr ⟨rfl, rfl⟩
  · unfold clearGroupPerms
    split
    · exact Or.inl ⟨rfl, rfl⟩
    · exact Or.inr ⟨rfl, rfl⟩

/- ## Plugin dependency graph (src/Coral/plugin_manager/models.py and
src/Coral/plugin_manager/metadata.py) -/

/-- Association-list lookup that models iteration-ordered Python dicts of
node sets; a missing key yields the empty set, as graph.get(node, set())
does. -/
def alistGet (l : List (String × List String)) (k : String) : List String :=
  ((l.find? (fun kv => kv.1 == k)).map (fun kv => kv.2)).getD []

/-- Key-presence test on an association list. -/
def alistHas (l : List (String × List String)) (k : String) : Bool :=
  l.any (fun kv => kv.1 == k)

/-- Add a member to the set stored under a key (Python set.add: no effect
when already present; insertion order is kept for the list model). -/
def alistAddMem (l : List (String × List String)) (k v : String) :
    List (String × List String) :=
  l.map (fun kv =>
    if kv.1 == k then (kv.1, if v ∈ kv.2 then kv.2 else kv.2 ++ [v]) else kv)

/-- DependencyGraph (models.py lines 140-144): insertion-ordered dicts from
plugin name to its set of dependencies (graph) and of dependents
(reverse_graph). -/
structure DependencyGraph where
  graph : List (String × List String)
  reverseGraph : List (String × List String)

/-- DependencyGraph.add_plugin (models.py lines 146-151). -/
def addPlugin (dg : DependencyGraph) (name : String) : DependencyGraph :=
  { graph := if alistHas dg.graph name then dg.graph else dg.graph ++ [(name, [])],
    reverseGraph :=
      if alistHas dg.reverseGraph name then dg.reverseGraph
      else dg.reverseGraph ++ [(name, [])] }

/-- DependencyGraph.add_dependency (models.py lines 153-158): register both
nodes, then record that the plugin depends on depends_on. -/
def addDependency (dg : DependencyGraph) (plugin dependsOn : String) :
    DependencyGraph :=
  let dg2 := addPlugin (addPlugin dg plugin) dependsOn
  { graph := alistAddMem dg2.graph plugin dependsOn,
    reverseGraph := alistAddMem dg2.reverseGraph dependsOn plugin }

/-- The inner DFS of DependencyGraph.has_cycle (models.py lines 168-192),
with the visited set and the caller-scoped recursion stack made explicit.
Fuel bounds the recursion; one unit is consumed per node visit and per
neighbor step, so the fuel supplied by hasCycle never runs out on an
actual graph, and every theorem below evaluates this function on concrete
inputs where the computed value certifies the behavior.  Fuel exhaustion
answers true (a cycle verdict), which is never reached at the supplied
fuel. -/
def dfsVisit (g : List (String × List String)) :
    Nat → String → List String → List String → Bool × List String
  | 0, _, visited, _ => (true, visited)
  | fuel + 1, node, visited, stack =>
      dfsNeighbors g fuel (alistGet g node) (visited ++ [node]) (stack ++ [node])
where
  /-- The for-loop over a node's neighbors inside the DFS. -/
  dfsNeighbors (g : List (String × List String)) :
      Nat → List String → List String → List String → Bool × List String
    | 0, _, visited, _ => (true, visited)
    | _ + 1, [], visited, _ => (false, visited)
    | fuel + 1, nb :: rest, visited, stack =>
        if nb ∉ visited then
          match dfsVisit g fuel nb visited stack with
          | (true, visited2) => (true, visited2)
          | (false, visited2) => dfsNeighbors g fuel rest visited2 stack
        else if nb ∈ stack then (true, visited)
        else dfsNeighbors g fuel rest visited stack

/-- The outer loop of has_cycle over every node of the graph in insertion
order, carrying the visited set across calls. -/
def hasCycleLoop (g : List (String × List String)) (fuel : Nat) :
    List String → List String → Bool
  | [], _ => false
  | n :: rest, visited =>
      if n ∉ visited then
        match dfsVisit g fuel n visited [] with
        | (true, _) => true
        | (false, visited2) => hasCycleLoop g fuel rest visited2
      else hasCycleLoop g fuel rest visited

/-- Fuel that covers every node visit and neighbor step of the DFS. -/
def cycleFuel (g : List (String × List String)) : Nat :=
  g.length + (g.map (fun kv => kv.2.length)).sum + 1

/-- DependencyGraph.has_cycle (models.py lines 168-192). -/
def hasCycle (dg : DependencyGraph) : Bool :=
  hasCycleLoop dg.graph (cycleFuel dg.graph) (dg.graph.map (fun kv => kv.1)) []

/-- Nat-valued association-list lookup for the in_degree dict. -/
def alistGetNat (l : List (String × Nat)) (k : String) : Nat :=
  ((l.find? (fun kv => kv.1 == k)).map (fun kv => kv.2)).getD 0

/-- Store a value in the in_degree dict (all its keys are created up
front, so update-in-place suffices). -/
def alistSetNat (l : List (String × Nat)) (k : String) (v : Nat) :
    List (String × Nat) :=
  l.map (fun kv => if kv.1 == k then (kv.1, v) else kv)

/-- The in-degree computation of topological_sort (models.py lines
205-209): every node starts at zero, then FOR EACH node each of its
dependency edges increments the in-degree of the DEPENDENCY.  Zero
in-degree therefore means that no other plugin depends on the node. -/
def kahnInDegrees (g : List (String × List String)) : List (String × Nat) :=
  g.foldl
    (fun acc kv => kv.2.foldl (fun acc2 nb => alistSetNat acc2 nb (alistGetNat acc2 nb + 1)) acc)
    (g.map (fun kv => (kv.1, 0)))

/-- One iteration of the while loop of topological_sort (models.py lines
219-223): decrement the in-degree of every neighbor of every node in the
current zero list, collecting the ones that reach zero. -/
def kahnStep (g : List (String × List String)) (indeg : List (String × Nat))
    (zero : List String) : List (String × Nat) × List String :=
  zero.foldl
    (fun acc node =>
      (alistGet g node).foldl
        (fun acc2 nb =>
          let d := alistGetNat acc2.1 nb - 1
          (alistSetNat acc2.1 nb d, if d = 0 then acc2.2 ++ [nb] else acc2.2))
        acc)
    (indeg, [])

/-- The while loop of topological_sort (models.py lines 215-225); the fuel
(node count + 1) is enough because every iteration starts from a nonempty
zero list of fresh nodes.  Returns the layers and the final in-degree map
for the final check of the source. -/
def kahnLayers (g : List (String × List String)) :
    Nat → List (String × Nat) → List String → List (List String) × List (String × Nat)
  | 0, indeg, _ => ([], indeg)
  | fuel + 1, indeg, zero =>
      if zero.isEmpty then ([], indeg)
      else
        match kahnStep g indeg zero with
        | (indeg2, zero2) =>
            match kahnLayers g fuel indeg2 zero2 with
            | (layers, indeg3) => (zero :: layers, indeg3)

/-- DependencyGraph.topological_sort (models.py lines 194-231): refuse on a
cycle, compute in-degrees, start from the zero-in-degree nodes in key
order, peel layers, and refuse when positive in-degrees remain. -/
def topologicalSort (dg : DependencyGraph) : Except String (List (List String)) :=
  if hasCycle dg then Except.error "Circular dependency detected"
  else
    let indeg := kahnInDegrees dg.graph
    let zero := (dg.graph.map (fun kv => kv.1)).filter (fun n => alistGetNat indeg n == 0)
    match kahnLayers dg.graph (dg.graph.length + 1) indeg zero with
    | (layers, indegFin) =>
        if (indegFin.filter (fun kv => 0 < kv.2)).length > 0 then
          Except.error "Graph has cycles or missing nodes"
        else Except.ok layers

/-- PluginMetadata.build_dependency_graph (metadata.py lines 161-185): add
every discovered plugin, then for each plugin each dependency that names a
known plugin. -/
def buildDependencyGraph (pluginsMeta : List (String × List String)) :
    DependencyGraph :=
  let g0 := pluginsMeta.foldl (fun dg kv => addPlugin dg kv.1) ⟨[], []⟩
  pluginsMeta.foldl
    (fun dg kv =>
      kv.2.foldl
        (fun dg2 dep =>
          if pluginsMeta.any (fun pm => pm.1 == dep) then addDependency dg2 kv.1 dep
          else dg2)
        dg)
    g0

/-- C1 evaluated at the failing input (code bug): for plugins A, B, C where
B and C depend on A, the code computes in-degrees along dependency edges,
so the zero-in-degree layer is the set of plugins NOBODY depends on: the
emitted layers are B, C first and A last — the reverse of the dependency
order the spec states (A in layer 0, then B and C), and the reverse of
what load_all_plugins needs for its deps-met bookkeeping. -/
theorem topological_sort_layers_reversed :
    topologicalSort (buildDependencyGraph [("A", []), ("B", ["A"]), ("C", ["A"])])
      = Except.ok [["B", "C"], ["A"]] := by
  rfl

/- ## Plugin loading (src/Coral/plugin_manager/manager.py, loader.py,
registry.py) -/

/-- PluginState values the claims reach. -/
inductive PState where
  | unloaded
  | loaded
  | errorState
  | disabled
deriving DecidableEq

/-- A registry PluginEntry with the fields the embedded code reads. -/
structure PluginEntryL where
  name : String
  dependencies : List String
  state : PState
deriving DecidableEq

/-- PluginRegistry.get_loaded_plugins (registry.py lines 124-126): the
entries whose state is LOADED, in registry order. -/
def getLoadedPlugins (reg : List PluginEntryL) : List PluginEntryL :=
  reg.filter (fun e => e.state == PState.loaded)

/-- PluginRegistry.is_loaded (registry.py lines 277-280). -/
def registryIsLoaded (reg : List PluginEntryL) (name : String) : Bool :=
  match reg.find? (fun e => e.name == name) with
  | some e => e.state == PState.loaded
  | none => false

/-- An element of the loaded_plugins set handed to the loader.  The
load_all path inserts plugin-name strings; PluginManager.load_plugin
(manager.py line 216) attempts to build a set of PluginEntry objects
instead, which raises before the loader runs (see setOfEntries). -/
inductive LoadedElem where
  | str (s : String)
  | entry (e : PluginEntryL)
deriving DecidableEq

/-- Python membership test of a string in the loaded_plugins set. -/
def loadedMemStr (s : String) (l : List LoadedElem) : Bool :=
  l.any (fun x =>
    match x with
    | .str t => t == s
    | .entry _ => false)

/-- Outcome of the dependency-checking phase of
PluginLoader.load_plugin_with_deps (loader.py lines 63-80).  The later
phases (pip install, module execution) are process I/O beyond this phase
and outside every claim. -/
inductive DepCheckOutcome where
  | alreadyLoaded
  | missingDeps (deps : List String)
  | proceed
deriving DecidableEq

/-- The dependency-checking phase of load_plugin_with_deps: an already
loaded plugin returns immediately; otherwise every declared dependency
that is not a member of loaded_plugins is missing, and any missing
dependency fails the load with them listed. -/
def loadPluginWithDepsCheck (pluginName : String) (dependencies : List String)
    (loadedPlugins : List LoadedElem) : DepCheckOutcome :=
  if loadedMemStr pluginName loadedPlugins then .alreadyLoaded
  else
    match dependencies.filter (fun d => !(loadedMemStr d loadedPlugins)) with
    | [] => .proceed
    | missing => .missingDeps missing

/-- Evaluation of set(registry.get_loaded_plugins()) at manager.py line
216.  PluginEntry (registry.py lines 20-30) is a plain dataclass with the
default eq and neither frozen nor unsafe_hash, so the dataclass machinery
sets its hash slot to None and instances are unhashable: building a set
from a nonempty list of entries raises TypeError; only the empty list
yields a set (the empty one). -/
def setOfEntries : List PluginEntryL → Except String (List LoadedElem)
  | [] => .ok []
  | _ :: _ => .error "unhashable type: 'PluginEntry'"

/-- Outcome of the dependency phase of PluginManager.load_plugin;
errorLoading is the reply of the enclosing except branch (manager.py lines
228-230). -/
inductive LoadPluginResult where
  | managerMissingDeps (deps : List String)
  | errorLoading (msg : String)
  | loaderMissingDeps (deps : List String)
  | loaderAlreadyLoaded
  | proceedToModuleExec
deriving DecidableEq

/-- The dependency phase of PluginManager.load_plugin (manager.py lines
183-230), after the directory, metadata and compatibility gates (pure
filesystem I/O): each declared dependency is checked with
registry.is_loaded and any missing one fails the call; then
set(registry.get_loaded_plugins()) is built — raising TypeError whenever a
loaded PluginEntry must be hashed, which the enclosing except turns into
the Error-loading reply — and only with the empty set does the loader's
own dependency check run at all. -/
def loadPluginDepPhase (reg : List PluginEntryL) (pluginName : String)
    (dependencies : List String) : LoadPluginResult :=
  match dependencies.filter (fun d => !(registryIsLoaded reg d)) with
  | [] =>
      match setOfEntries (getLoadedPlugins reg) with
      | .error msg => .errorLoading ("Error loading plugin " ++ pluginName ++ ": " ++ msg)
      | .ok loadedPlugins =>
          match loadPluginWithDepsCheck pluginName dependencies loadedPlugins with
          | .alreadyLoaded => .loaderAlreadyLoaded
          | .missingDeps ds => .loaderMissingDeps ds
          | .proceed => .proceedToModuleExec
  | missing => .managerMissingDeps missing

theorem getLoadedPlugins_ne_nil_of_isLoaded (reg : List PluginEntryL)
    (d : String) (h : registryIsLoaded reg d = true) :
    getLoadedPlugins reg ≠ [] := by
  unfold registryIsLoaded at h
  rcases hf : reg.find? (fun e => e.name == d) with _ | e
  · rw [hf] at h
    simp at h
  · rw [hf] at h
    have hmem : e ∈ reg := List.mem_of_find?_eq_some hf
    have hmem2 : e ∈ getLoadedPlugins reg := by
      unfold getLoadedPlugins
      exact List.mem_filter.mpr ⟨hmem, h⟩
    exact List.ne_nil_of_mem hmem2

/-- C10 counterexample: with dependency A loaded in the registry, loading
plugin B that depends on A does fail, but not through the loader's
membership test as the claim states — set(registry.get_loaded_plugins())
raises TypeError on the unhashable PluginEntry before the loader runs, and
the outer except returns the Error-loading reply instead of the
Missing-dependencies one. -/
theorem load_plugin_unhashable_cex :
    loadPluginDepPhase [⟨"A", [], PState.loaded⟩] "B" ["A"]
      = LoadPluginResult.errorLoading
          ("Error loading plugin " ++ "B" ++ ": " ++ "unhashable type: 'PluginEntry'") ∧
    loadPluginDepPhase [⟨"A", [], PState.loaded⟩] "B" ["A"]
      ≠ LoadPluginResult.loaderMissingDeps ["A"] := by
  exact ⟨rfl, by decide⟩

/-- C10 amended: for every plugin declaring at least one dependency, the
single-plugin load_plugin fails even when every declared dependency is
currently loaded — not with the loader's Missing-dependencies reply, but
because building set(registry.get_loaded_plugins()) hashes unhashable
PluginEntry instances and the TypeError is returned by the outer handler
as the Error-loading reply; the loader's string-versus-entry membership
test is never reached. -/
theorem load_plugin_fails_unhashable (reg : List PluginEntryL)
    (pluginName : String) (dependencies : List String)
    (hne : dependencies ≠ [])
    (hloaded : ∀ d ∈ dependencies, registryIsLoaded reg d = true) :
    loadPluginDepPhase reg pluginName dependencies
      = LoadPluginResult.errorLoading
          ("Error loading plugin " ++ pluginName ++ ": "
            ++ "unhashable type: 'PluginEntry'") := by
  have hmiss : dependencies.filter (fun d => !(registryIsLoaded reg d)) = [] := by
    refine List.filter_eq_nil_iff.mpr ?_
    intro d hd
    simp [hloaded d hd]
  obtain ⟨d, hd⟩ : ∃ d, d ∈ dependencies := by
    cases dependencies with
    | nil => exact absurd rfl hne
    | cons a t => exact ⟨a, by simp⟩
  have hne2 : getLoadedPlugins reg ≠ [] :=
    getLoadedPlugins_ne_nil_of_isLoaded reg d (hloaded d hd)
  unfold loadPluginDepPhase
  rw [hmiss]
  cases hg : getLoadedPlugins reg with
  | nil => exact absurd hg hne2
  | cons e t => rfl

theorem load_plugin_fails_unhashable_witness :
    registryIsLoaded [⟨"A", [], PState.loaded⟩] "A" = true ∧
    loadPluginDepPhase [⟨"A", [], PState.loaded⟩] "B" ["A"]
      = LoadPluginResult.errorLoading
          ("Error loading plugin " ++ "B" ++ ": "
            ++ "unhashable type: 'PluginEntry'") := by
  refine ⟨by decide, ?_⟩
  refine load_plugin_fails_unhashable [⟨"A", [], PState.loaded⟩] "B" ["A"]
    (by decide) ?_
  intro d hd
  rcases List.mem_singleton.mp hd with rfl
  decide
